import Mathlib

/-!
Verification of the playlist HTTP service (`src/application/app/app.py`).

The service is a set of stateless Flask handlers over a single MongoDB
collection of playlist documents.  We embed the handlers as pure functions
from a store state and a parsed request to a response and a new store state.

Modelling choices, matched line by line against the source:
* A parsed JSON value is `JVal`; a JSON object / Python dict is an ordered
  association list `Doc` (Python dicts preserve insertion order).
* The collection is a `List Doc` in insertion order; MongoDB's filter
  `{'name': n}` selects documents whose `name` field is the string `n`,
  and `find_one` / `update_one` / `delete_one` act on the first match.
* Store-assigned ids (`_id` / `inserted_id`) are modelled by a counter
  `nextId` carried in the store state.
* A request body is `Body`: `notJson` when `request.is_json` is false
  (absent body or non-JSON content type), `parseError` when
  `request.get_json()` raises, otherwise the parsed value.
* Python truthiness (`not playlist`) is `JVal.falsy`.
* Item assignment `playlist['name'] = name` (POST) and
  `playlist.pop('name', None)` (PUT) raise a TypeError / AttributeError on
  a non-dict value; the surrounding `except` turns that into a 500
  response with no store change, which the embedding returns directly.
-/

/-- JSON values as produced by `request.get_json()`. -/
inductive JVal where
  | null
  | bool (b : Bool)
  | num (n : Int)
  | str (s : String)
  | arr (elems : List JVal)
  | obj (fields : List (String × JVal))

/-- Python truthiness of a parsed JSON value: the check
`playlist is None or not playlist` in the handlers is `falsy`. -/
def JVal.falsy : JVal → Bool
  | .null => true
  | .bool b => !b
  | .num n => n == 0
  | .str s => s == ""
  | .arr l => l.isEmpty
  | .obj l => l.isEmpty

/-- A JSON object / stored document: ordered list of fields, as a Python
dict (keys unique, insertion order preserved). -/
abbrev Doc := List (String × JVal)

/-- Dict lookup `d[k]`: value of the first field named `k`. -/
def Doc.get (d : Doc) (k : String) : Option JVal :=
  (d.find? (fun p => p.1 == k)).map (fun p => p.2)

/-- Dict assignment `d[k] = v`: replace the value in place when the key is
present, append the field otherwise. -/
def Doc.set (d : Doc) (k : String) (v : JVal) : Doc :=
  match d with
  | [] => [(k, v)]
  | p :: rest => if p.1 == k then (k, v) :: rest else p :: Doc.set rest k v

/-- Python `d.pop(k, None)`: remove the key when present. -/
def Doc.pop (d : Doc) (k : String) : Doc :=
  d.filter (fun p => p.1 != k)

/-- MongoDB `$set` update: apply each update field to the document, in
order (partial-field merge). -/
def Doc.merge (d : Doc) (fields : Doc) : Doc :=
  fields.foldl (fun acc p => Doc.set acc p.1 p.2) d

/-- Does the document match the filter `{'name': n}`, i.e. is its `name`
field the string `n`? -/
def Doc.hasName (d : Doc) (n : String) : Bool :=
  match Doc.get d "name" with
  | some (.str s) => s == n
  | _ => false

/-- The document-store state: the `playlists` collection plus the
generator of store-assigned ids. -/
structure Store where
  coll : List Doc
  nextId : Nat

/-- `mongo.db.playlists.find_one({'name': name})`. -/
def find_one (c : List Doc) (name : String) : Option Doc :=
  c.find? (fun d => Doc.hasName d name)

/-- `mongo.db.playlists.update_one({'name': name}, {'$set': fields})`:
merge `fields` into the first matching document; returns the new
collection and `matched_count` (0 or 1). -/
def update_one (c : List Doc) (name : String) (fields : Doc) : List Doc × Nat :=
  match c with
  | [] => ([], 0)
  | d :: rest =>
    if Doc.hasName d name then (Doc.merge d fields :: rest, 1)
    else
      let r := update_one rest name fields
      (d :: r.1, r.2)

/-- `mongo.db.playlists.delete_one({'name': name})`: remove the first
matching document; returns the new collection and `deleted_count`. -/
def delete_one (c : List Doc) (name : String) : List Doc × Nat :=
  match c with
  | [] => ([], 0)
  | d :: rest =>
    if Doc.hasName d name then (rest, 1)
    else
      let r := delete_one rest name
      (d :: r.1, r.2)

/-- An incoming request body as the handler observes it. -/
inductive Body where
  | notJson
  | parseError
  | json (v : JVal)

/-- A JSON response: the HTTP status plus the response fields the
verification inspects (`name` and `id` of a successful create). -/
structure Resp where
  status : Nat
  name : Option String := none
  id : Option Nat := none

/-- POST `/playlists/<name>` (`add_playlist`): validate the body, set
`playlist['name'] = name`, reject an existing name with 409, otherwise
insert and answer 201 with the path name and the generated id.  A
non-dict (but truthy) JSON body raises on item assignment, caught as 500. -/
def add_playlist (st : Store) (name : String) (b : Body) : Resp × Store :=
  match b with
  | .notJson => ({ status := 400 }, st)
  | .parseError => ({ status := 400 }, st)
  | .json v =>
    if v.falsy then ({ status := 400 }, st)
    else
      match v with
      | .obj fields =>
        let playlist := Doc.set fields "name" (.str name)
        match find_one st.coll name with
        | some _ => ({ status := 409 }, st)
        | none =>
          let stored := Doc.set playlist "_id" (.num st.nextId)
          ({ status := 201, name := some name, id := some st.nextId },
           { coll := st.coll ++ [stored], nextId := st.nextId + 1 })
      | _ => ({ status := 500 }, st)

/-- PUT `/playlists/<name>` (`update_playlist`): validate the body, strip
any `name` key, merge the remaining fields into the matching document;
404 when nothing matched.  A non-dict (but truthy) JSON body raises on
`.pop`, caught as 500. -/
def update_playlist (st : Store) (name : String) (b : Body) : Resp × Store :=
  match b with
  | .notJson => ({ status := 400 }, st)
  | .parseError => ({ status := 400 }, st)
  | .json v =>
    if v.falsy then ({ status := 400 }, st)
    else
      match v with
      | .obj fields =>
        let r := update_one st.coll name (Doc.pop fields "name")
        if r.2 == 0 then ({ status := 404 }, { st with coll := r.1 })
        else ({ status := 200 }, { st with coll := r.1 })
      | _ => ({ status := 500 }, st)

/-- DELETE `/playlists/<name>` (`delete_playlist`): delete the matching
document; 404 when nothing was deleted. -/
def delete_playlist (st : Store) (name : String) : Resp × Store :=
  let r := delete_one st.coll name
  if r.2 == 0 then ({ status := 404 }, { st with coll := r.1 })
  else ({ status := 200 }, { st with coll := r.1 })

/-- Response of GET `/playlists`; `skip` records the handler's computed
skip count passed to the store cursor. -/
structure ListResp where
  playlists : List Doc
  page : Int
  per_page : Int
  skip : Int
  total : Nat
  pages : Int

/-- GET `/playlists` (`get_all_playlists`): pagination parameters
(`none` for an absent query parameter), the collection window, the total
count, and the page count `(total + per_page - 1) // per_page` (Python
floor division) when `total > 0`, else `0`. -/
def get_all_playlists (st : Store) (pageArg perPageArg : Option Int) : ListResp :=
  let page := pageArg.getD 1
  let per_page := min (perPageArg.getD 10) 50
  let skip := (page - 1) * per_page
  { playlists := (st.coll.drop skip.toNat).take per_page.toNat
    page := page
    per_page := per_page
    skip := skip
    total := st.coll.length
    pages := if st.coll.length > 0
             then Int.fdiv ((st.coll.length : Int) + per_page - 1) per_page
             else 0 }

/-- The default in `os.environ.get('MONGODB_URI', ...)`. -/
def defaultMongoUri : String := "mongodb://localhost:27017/playlists_db"

/-- Module-level startup: read `MONGODB_URI` with a built-in default and
raise when the resulting value is empty.  `env` is the environment
variable's value, `none` when unset. -/
def resolveMongoUri (env : Option String) : Except String String :=
  let mongo_uri := env.getD defaultMongoUri
  if mongo_uri = "" then
    Except.error "Environment variable MONGODB_URI is not set or empty."
  else
    Except.ok mongo_uri

/-- A sample stored playlist document used by the concrete witnesses. -/
def sampleDoc : Doc := [("name", JVal.str "jazz"), ("genre", JVal.str "cool")]

/-- A sample store containing one playlist named `jazz`. -/
def sampleStore : Store := { coll := [sampleDoc], nextId := 5 }

/-- The empty store. -/
def emptyStore : Store := { coll := [], nextId := 0 }

/-- A store holding `n` documents; only its count matters to pagination. -/
def storeOfCount (n : Nat) : Store := { coll := List.replicate n [], nextId := 0 }

/-! ### Dictionary lemmas -/

theorem doc_get_cons (p : String × JVal) (ps : Doc) (k : String) :
    Doc.get (p :: ps) k = if p.1 == k then some p.2 else Doc.get ps k := by
  unfold Doc.get
  rw [List.find?_cons]
  cases h : (p.1 == k) <;> simp

theorem doc_get_set_ne (d : Doc) (k k' : String) (v : JVal) (h : k' ≠ k) :
    Doc.get (Doc.set d k' v) k = Doc.get d k := by
  induction d with
  | nil =>
    have hk : (k' == k) = false := by simp [h]
    simp [Doc.set, doc_get_cons, hk]
  | cons p ps ih =>
    by_cases hp : (p.1 == k') = true
    · have hp1 : p.1 = k' := by simpa using hp
      have hk : (k' == k) = false := by simp [h]
      have hpk : (p.1 == k) = false := by simp [hp1, h]
      simp [Doc.set, hp, doc_get_cons, hk, hpk]
    · have hpf : (p.1 == k') = false := by simpa using hp
      simp [Doc.set, hpf, doc_get_cons, ih]

theorem doc_merge_cons (d : Doc) (p : String × JVal) (ps : Doc) :
    Doc.merge d (p :: ps) = Doc.merge (Doc.set d p.1 p.2) ps := rfl

theorem doc_get_merge (d fields : Doc) (k : String)
    (hf : ∀ p ∈ fields, p.1 ≠ k) :
    Doc.get (Doc.merge d fields) k = Doc.get d k := by
  induction fields generalizing d with
  | nil => rfl
  | cons p ps ih =>
    rw [doc_merge_cons, ih _ (fun q hq => hf q (List.mem_cons_of_mem _ hq)),
      doc_get_set_ne _ _ _ _ (hf p (List.mem_cons_self _ _))]

theorem doc_hasName_congr (d e : Doc) (n : String)
    (h : Doc.get d "name" = Doc.get e "name") :
    Doc.hasName d n = Doc.hasName e n := by
  unfold Doc.hasName
  rw [h]

theorem doc_hasName_str (d : Doc) (n : String) (h : Doc.hasName d n = true) :
    Doc.get d "name" = some (.str n) := by
  unfold Doc.hasName at h
  cases hg : Doc.get d "name" with
  | none => rw [hg] at h; simp at h
  | some v =>
    cases v with
    | str s => rw [hg] at h; simp at h; rw [h]
    | null => rw [hg] at h; simp at h
    | bool b => rw [hg] at h; simp at h
    | num m => rw [hg] at h; simp at h
    | arr l => rw [hg] at h; simp at h
    | obj l => rw [hg] at h; simp at h

theorem doc_pop_key_ne (d : Doc) (k : String) :
    ∀ p ∈ Doc.pop d k, p.1 ≠ k := by
  intro p hp
  have := List.of_mem_filter hp
  simpa using this

/-! ### Store-operation lemmas -/

theorem find_one_nil (nm : String) : find_one [] nm = none := rfl

theorem find_one_cons (d : Doc) (c : List Doc) (nm : String) :
    find_one (d :: c) nm =
      if Doc.hasName d nm then some d else find_one c nm := by
  rw [find_one, List.find?_cons]
  cases h : Doc.hasName d nm <;> simp [find_one]

theorem find_one_after_update (c : List Doc) (nm : String) (fields : Doc) (d : Doc)
    (h : find_one c nm = some d) (hf : ∀ p ∈ fields, p.1 ≠ "name") :
    find_one (update_one c nm fields).1 nm = some (Doc.merge d fields) ∧
      (update_one c nm fields).2 = 1 := by
  induction c with
  | nil => simp [find_one_nil] at h
  | cons hd tl ih =>
    cases hhd : Doc.hasName hd nm with
    | true =>
      rw [find_one_cons, hhd, if_pos rfl] at h
      have hd_eq : hd = d := by simpa using h
      subst hd_eq
      have hmergeName : Doc.hasName (Doc.merge hd fields) nm = true := by
        rw [doc_hasName_congr _ hd _ (doc_get_merge _ _ _ hf)]
        exact hhd
      rw [update_one]
      simp only [hhd, if_true]
      exact ⟨by rw [find_one_cons, hmergeName, if_pos rfl], trivial⟩
    | false =>
      rw [find_one_cons, hhd] at h
      simp only [Bool.false_eq_true, if_false] at h
      have htl := ih h
      rw [update_one]
      simp only [hhd, Bool.false_eq_true, if_false]
      refine ⟨?_, htl.2⟩
      rw [find_one_cons, hhd]
      simpa using htl.1

theorem update_one_of_none (c : List Doc) (nm : String) (fields : Doc)
    (h : find_one c nm = none) :
    update_one c nm fields = (c, 0) := by
  induction c with
  | nil => rfl
  | cons hd tl ih =>
    rw [find_one_cons] at h
    cases hhd : Doc.hasName hd nm with
    | true => rw [hhd, if_pos rfl] at h; exact absurd h (by simp)
    | false =>
      rw [hhd] at h
      simp only [Bool.false_eq_true, if_false] at h
      rw [update_one]
      simp only [hhd, Bool.false_eq_true, if_false, ih h]

theorem update_one_nil_fields (c : List Doc) (nm : String) :
    (update_one c nm []).1 = c := by
  induction c with
  | nil => rfl
  | cons hd tl ih =>
    cases hhd : Doc.hasName hd nm with
    | true => simp [update_one, hhd, Doc.merge]
    | false => simp [update_one, hhd, ih]

theorem delete_one_count_zero (c : List Doc) (nm : String)
    (h : c.countP (fun d => Doc.hasName d nm) = 0) :
    delete_one c nm = (c, 0) := by
  induction c with
  | nil => rfl
  | cons hd tl ih =>
    rw [List.countP_cons] at h
    cases hhd : Doc.hasName hd nm with
    | true => rw [hhd] at h; simp at h
    | false =>
      rw [hhd] at h
      simp only [Bool.false_eq_true, if_false, Nat.add_zero] at h
      simp [delete_one, hhd, ih h]

theorem delete_one_count_pos (c : List Doc) (nm : String)
    (h : 0 < c.countP (fun d => Doc.hasName d nm)) :
    (delete_one c nm).2 = 1 ∧
      (delete_one c nm).1.countP (fun d => Doc.hasName d nm) =
        c.countP (fun d => Doc.hasName d nm) - 1 := by
  induction c with
  | nil => simp at h
  | cons hd tl ih =>
    cases hhd : Doc.hasName hd nm with
    | true =>
      refine ⟨by simp [delete_one, hhd], ?_⟩
      simp [delete_one, hhd, List.countP_cons]
    | false =>
      have htl : 0 < tl.countP (fun d => Doc.hasName d nm) := by
        rw [List.countP_cons, hhd] at h
        simpa using h
      have hih := ih htl
      refine ⟨by simp [delete_one, hhd, hih.1], ?_⟩
      have h1 : (delete_one (hd :: tl) nm).1 = hd :: (delete_one tl nm).1 := by
        simp [delete_one, hhd]
      rw [h1, List.countP_cons, List.countP_cons, hhd]
      simp only [Bool.false_eq_true, if_false, Nat.add_zero]
      rw [hih.2]

/-! ### Arithmetic lemma for the page count -/

theorem fdiv_ceil_eq (t p : Int) (hp : 0 < p) :
    Int.fdiv (t + p - 1) p = ⌈(t : ℚ) / (p : ℚ)⌉ := by
  have hfd : Int.fdiv (t + p - 1) p = (t + p - 1) / p :=
    Int.fdiv_eq_ediv _ (le_of_lt hp)
  have hdm : p * ((t - 1) / p) + (t - 1) % p = t - 1 := Int.ediv_add_emod (t - 1) p
  have hr0 : 0 ≤ (t - 1) % p := Int.emod_nonneg _ (ne_of_gt hp)
  have hrp : (t - 1) % p < p := Int.emod_lt_of_pos _ hp
  have hsplit : (t + p - 1) / p = (t - 1) / p + 1 := by
    have h1 : t + p - 1 = (t - 1) + 1 * p := by ring
    rw [h1, Int.add_mul_ediv_right _ _ (ne_of_gt hp)]
  rw [hfd, hsplit]
  have hpq : (0 : ℚ) < (p : ℚ) := by exact_mod_cast hp
  symm
  rw [Int.ceil_eq_iff]
  constructor
  · rw [lt_div_iff₀ hpq]
    have hlt : ((t - 1) / p + 1 - 1) * p < t := by
      have hb : p * ((t - 1) / p) ≤ t - 1 := by omega
      nlinarith [hb]
    exact_mod_cast hlt
  · rw [div_le_iff₀ hpq]
    have hle : t ≤ ((t - 1) / p + 1) * p := by
      have h2 : p * ((t - 1) / p) = t - 1 - (t - 1) % p := by omega
      nlinarith [h2]
    exact_mod_cast hle

/-! ### Claim theorems -/

/-- C2: a POST or PUT to `/playlists/{name}` whose body is absent or not
JSON, fails to parse, or is the empty JSON object, returns status 400 and
attempts no store operation (the store state is unchanged). -/
theorem invalid_body_rejected (st : Store) (nm : String) (b : Body)
    (hb : b = .notJson ∨ b = .parseError ∨ b = .json (.obj [])) :
    (add_playlist st nm b).1.status = 400 ∧ (add_playlist st nm b).2 = st ∧
      (update_playlist st nm b).1.status = 400 ∧ (update_playlist st nm b).2 = st := by
  rcases hb with rfl | rfl | rfl
  · exact ⟨rfl, rfl, rfl, rfl⟩
  · exact ⟨rfl, rfl, rfl, rfl⟩
  · exact ⟨rfl, rfl, rfl, rfl⟩

/-- Witness for C2: the non-JSON body against a concrete store. -/
theorem invalid_body_rejected_witness :
    (Body.notJson = Body.notJson ∨ Body.notJson = Body.parseError ∨
      Body.notJson = Body.json (.obj [])) ∧
    (add_playlist sampleStore "jazz" Body.notJson).1.status = 400 ∧
    (add_playlist sampleStore "jazz" Body.notJson).2 = sampleStore ∧
    (update_playlist sampleStore "jazz" Body.notJson).1.status = 400 ∧
    (update_playlist sampleStore "jazz" Body.notJson).2 = sampleStore :=
  ⟨Or.inl rfl,
   (invalid_body_rejected sampleStore "jazz" Body.notJson (Or.inl rfl)).1,
   (invalid_body_rejected sampleStore "jazz" Body.notJson (Or.inl rfl)).2.1,
   (invalid_body_rejected sampleStore "jazz" Body.notJson (Or.inl rfl)).2.2.1,
   (invalid_body_rejected sampleStore "jazz" Body.notJson (Or.inl rfl)).2.2.2⟩

/-- C4: GET `/playlists` paging: the effective page size is
min(requested per_page, 50), hence exactly 50 for any request above 50 and
10 when the parameter is absent; page defaults to 1 when absent; the skip
count always equals (page - 1) * effective page size. -/
theorem pagination_params (st : Store) (pageArg : Option Int) (q : Int) :
    (get_all_playlists st pageArg (some q)).per_page = min q 50 ∧
      (50 < q → (get_all_playlists st pageArg (some q)).per_page = 50) ∧
      (get_all_playlists st pageArg none).per_page = 10 ∧
      (get_all_playlists st none (some q)).page = 1 ∧
      (∀ pp : Option Int,
        (get_all_playlists st pageArg pp).skip =
          ((get_all_playlists st pageArg pp).page - 1) *
            (get_all_playlists st pageArg pp).per_page) := by
  refine ⟨rfl, fun h => ?_, ?_, rfl, fun pp => rfl⟩
  · show min q 50 = 50
    exact min_eq_right h.le
  · show min (10 : Int) 50 = 10
    decide

/-- Witness for C4: per_page 99 is clamped to 50 on a concrete store. -/
theorem pagination_params_witness :
    50 < (99 : Int) ∧
    (get_all_playlists emptyStore none (some 99)).per_page = 50 ∧
    (get_all_playlists emptyStore none none).per_page = 10 ∧
    (get_all_playlists emptyStore none (some 99)).page = 1 ∧
    (get_all_playlists emptyStore none (some 99)).skip =
      ((get_all_playlists emptyStore none (some 99)).page - 1) *
        (get_all_playlists emptyStore none (some 99)).per_page :=
  ⟨by decide,
   (pagination_params emptyStore none 99).2.1 (by decide),
   (pagination_params emptyStore none 99).2.2.1,
   (pagination_params emptyStore none 99).2.2.2.1,
   (pagination_params emptyStore none 99).2.2.2.2 (some 99)⟩

/-- C9 (amended): startup fails with the fatal URI error exactly when the
MONGODB_URI environment variable is set to the empty string; when it is
absent, startup succeeds using the built-in localhost default. -/
theorem mongo_uri_empty_fatal (env : Option String) :
    (∃ msg, resolveMongoUri env = Except.error msg) ↔ env = some "" := by
  cases env with
  | none => simp [resolveMongoUri, defaultMongoUri]
  | some s =>
    by_cases hs : s = ""
    · subst hs
      simp [resolveMongoUri]
    · simp [resolveMongoUri, hs]

/-- C9 counterexample: with MONGODB_URI absent from the environment,
startup does not fail; it resolves to the default localhost URI. -/
theorem mongo_uri_absent_defaults :
    resolveMongoUri none = Except.ok defaultMongoUri := rfl

/-- C1: a POST to `/playlists/{name}` with a valid non-empty JSON object
body, when a playlist with that name already exists in the store, returns
status 409 and performs no insert: the store state is unchanged. -/
theorem add_existing_returns_conflict (st : Store) (nm : String) (fields : Doc)
    (hne : fields ≠ []) (hex : (find_one st.coll nm).isSome = true) :
    (add_playlist st nm (.json (.obj fields))).1.status = 409 ∧
      (add_playlist st nm (.json (.obj fields))).2 = st := by
  obtain ⟨d, hd⟩ := Option.isSome_iff_exists.mp hex
  have hfalsy : (JVal.obj fields).falsy = false := by
    simp [JVal.falsy, List.isEmpty_iff, hne]
  simp only [add_playlist, hfalsy, Bool.false_eq_true, if_false, hd]
  exact ⟨by trivial, by trivial⟩

/-- Witness for C1: re-creating the existing `jazz` playlist. -/
theorem add_existing_returns_conflict_witness :
    ([("songs", JVal.arr [])] : Doc) ≠ [] ∧
      (find_one sampleStore.coll "jazz").isSome = true ∧
      (add_playlist sampleStore "jazz"
        (.json (.obj [("songs", JVal.arr [])]))).1.status = 409 ∧
      (add_playlist sampleStore "jazz"
        (.json (.obj [("songs", JVal.arr [])]))).2 = sampleStore :=
  ⟨List.cons_ne_nil _ _, rfl,
   (add_existing_returns_conflict sampleStore "jazz" [("songs", JVal.arr [])]
      (List.cons_ne_nil _ _) rfl).1,
   (add_existing_returns_conflict sampleStore "jazz" [("songs", JVal.arr [])]
      (List.cons_ne_nil _ _) rfl).2⟩

/-- C6: a POST to `/playlists/{name}` with a valid non-empty JSON object
body, when no playlist with that name exists, returns status 201, echoes
the URL path segment as `name` regardless of the body's other fields, and
returns the store-generated identifier. -/
theorem add_new_created (st : Store) (nm : String) (fields : Doc)
    (hne : fields ≠ []) (hnone : find_one st.coll nm = none) :
    (add_playlist st nm (.json (.obj fields))).1.status = 201 ∧
      (add_playlist st nm (.json (.obj fields))).1.name = some nm ∧
      (add_playlist st nm (.json (.obj fields))).1.id = some st.nextId := by
  have hfalsy : (JVal.obj fields).falsy = false := by
    simp [JVal.falsy, List.isEmpty_iff, hne]
  simp only [add_playlist, hfalsy, Bool.false_eq_true, if_false, hnone]
  exact ⟨by trivial, by trivial, by trivial⟩

/-- Witness for C6: creating `blues` in a store that lacks it, with an
extra body field. -/
theorem add_new_created_witness :
    ([("name", JVal.str "other"), ("mood", JVal.str "low")] : Doc) ≠ [] ∧
      find_one sampleStore.coll "blues" = none ∧
      (add_playlist sampleStore "blues"
        (.json (.obj [("name", JVal.str "other"),
                      ("mood", JVal.str "low")]))).1.status = 201 ∧
      (add_playlist sampleStore "blues"
        (.json (.obj [("name", JVal.str "other"),
                      ("mood", JVal.str "low")]))).1.name = some "blues" ∧
      (add_playlist sampleStore "blues"
        (.json (.obj [("name", JVal.str "other"),
                      ("mood", JVal.str "low")]))).1.id = some sampleStore.nextId :=
  ⟨List.cons_ne_nil _ _, rfl,
   (add_new_created sampleStore "blues" _ (List.cons_ne_nil _ _) rfl).1,
   (add_new_created sampleStore "blues" _ (List.cons_ne_nil _ _) rfl).2.1,
   (add_new_created sampleStore "blues" _ (List.cons_ne_nil _ _) rfl).2.2⟩

/-- C7: a PUT to `/playlists/{name}` with a valid non-empty JSON object
body, when no stored playlist has that name, returns status 404 and
modifies no stored document: the store state is unchanged. -/
theorem update_missing_not_found (st : Store) (nm : String) (fields : Doc)
    (hne : fields ≠ []) (hnone : find_one st.coll nm = none) :
    (update_playlist st nm (.json (.obj fields))).1.status = 404 ∧
      (update_playlist st nm (.json (.obj fields))).2 = st := by
  have hupd := update_one_of_none st.coll nm (Doc.pop fields "name") hnone
  have hfalsy : (JVal.obj fields).falsy = false := by
    simp [JVal.falsy, List.isEmpty_iff, hne]
  simp only [update_playlist, hfalsy, Bool.false_eq_true, if_false, hupd]
  exact ⟨by trivial, by trivial⟩

/-- Witness for C7: updating the absent `blues` playlist. -/
theorem update_missing_not_found_witness :
    ([("mood", JVal.str "low")] : Doc) ≠ [] ∧
      find_one sampleStore.coll "blues" = none ∧
      (update_playlist sampleStore "blues"
        (.json (.obj [("mood", JVal.str "low")]))).1.status = 404 ∧
      (update_playlist sampleStore "blues"
        (.json (.obj [("mood", JVal.str "low")]))).2 = sampleStore :=
  ⟨List.cons_ne_nil _ _, rfl,
   (update_missing_not_found sampleStore "blues" _ (List.cons_ne_nil _ _) rfl).1,
   (update_missing_not_found sampleStore "blues" _ (List.cons_ne_nil _ _) rfl).2⟩

/-- C3: a PUT to `/playlists/{name}` with a valid non-empty JSON object
body leaves the stored playlist's `name` field unchanged — after the
update it still equals its value before the update, namely the URL path
segment — even when the body contains a `name` key with another value. -/
theorem update_preserves_stored_name (st : Store) (nm : String) (fields : Doc)
    (hne : fields ≠ []) (hex : (find_one st.coll nm).isSome = true) :
    ∃ d d', find_one st.coll nm = some d ∧
      find_one (update_playlist st nm (.json (.obj fields))).2.coll nm = some d' ∧
      Doc.get d' "name" = Doc.get d "name" ∧
      Doc.get d "name" = some (.str nm) := by
  obtain ⟨d, hd⟩ := Option.isSome_iff_exists.mp hex
  have hf : ∀ p ∈ Doc.pop fields "name", p.1 ≠ "name" := doc_pop_key_ne fields "name"
  have hupd := find_one_after_update st.coll nm (Doc.pop fields "name") d hd hf
  have hfalsy : (JVal.obj fields).falsy = false := by
    simp [JVal.falsy, List.isEmpty_iff, hne]
  have hd' : List.find? (fun x => Doc.hasName x nm) st.coll = some d := hd
  have hname : Doc.hasName d nm = true := by
    have hx := List.find?_some hd'
    simpa using hx
  refine ⟨d, Doc.merge d (Doc.pop fields "name"), hd, ?_,
    doc_get_merge _ _ _ hf, doc_hasName_str _ _ hname⟩
  simp only [update_playlist, hfalsy, Bool.false_eq_true, if_false, hupd.2]
  have hcoll :
      ((if ((update_one st.coll nm (Doc.pop fields "name")).2 == 0) = true
        then ({ status := 404 }, { st with coll := (update_one st.coll nm (Doc.pop fields "name")).1 })
        else ({ status := 200 }, { st with coll := (update_one st.coll nm (Doc.pop fields "name")).1 })) :
          Resp × Store).2.coll = (update_one st.coll nm (Doc.pop fields "name")).1 := by
    split <;> rfl
  rw [hupd.2] at hcoll
  exact hcoll ▸ hupd.1

/-- Witness for C3: updating `jazz` with a body that tries to rename it. -/
theorem update_preserves_stored_name_witness :
    ([("name", JVal.str "rock"), ("genre", JVal.str "hot")] : Doc) ≠ [] ∧
      (find_one sampleStore.coll "jazz").isSome = true ∧
      (∃ d d', find_one sampleStore.coll "jazz" = some d ∧
        find_one (update_playlist sampleStore "jazz"
          (.json (.obj [("name", JVal.str "rock"),
                        ("genre", JVal.str "hot")]))).2.coll "jazz" = some d' ∧
        Doc.get d' "name" = Doc.get d "name" ∧
        Doc.get d "name" = some (.str "jazz")) :=
  ⟨List.cons_ne_nil _ _, rfl,
   update_preserves_stored_name sampleStore "jazz" _ (List.cons_ne_nil _ _) rfl⟩

/-- C10: a PUT to `/playlists/{name}` whose body is exactly the one-key
object with a `name` field is not rejected as empty: when the playlist
exists the handler returns 200 (not 400) and the store update carries an
empty field set, leaving every field of the stored collection unchanged. -/
theorem update_name_only_noop (st : Store) (nm : String) (v : JVal)
    (hex : (find_one st.coll nm).isSome = true) :
    (update_playlist st nm (.json (.obj [("name", v)]))).1.status = 200 ∧
      (update_playlist st nm (.json (.obj [("name", v)]))).2 = st := by
  obtain ⟨d, hd⟩ := Option.isSome_iff_exists.mp hex
  have hpop : Doc.pop [("name", v)] "name" = ([] : Doc) := rfl
  have hupd := find_one_after_update st.coll nm [] d hd (by simp)
  have hnil := update_one_nil_fields st.coll nm
  simp only [update_playlist, JVal.falsy, List.isEmpty_cons, Bool.false_eq_true,
    if_false, hpop, hupd.2, hnil]
  exact ⟨by trivial, by trivial⟩

/-- Witness for C10: putting only a new `name` to the existing `jazz`. -/
theorem update_name_only_noop_witness :
    (find_one sampleStore.coll "jazz").isSome = true ∧
      (update_playlist sampleStore "jazz"
        (.json (.obj [("name", JVal.str "rock")]))).1.status = 200 ∧
      (update_playlist sampleStore "jazz"
        (.json (.obj [("name", JVal.str "rock")]))).2 = sampleStore :=
  ⟨rfl,
   (update_name_only_noop sampleStore "jazz" (JVal.str "rock") rfl).1,
   (update_name_only_noop sampleStore "jazz" (JVal.str "rock") rfl).2⟩

/-- C8: DELETE `/playlists/{name}`: when no stored playlist has the name,
the handler returns 404 and changes nothing; when one exists it removes
one matching document and returns 200; hence with a unique match,
deleting the same name twice yields 200 then 404. -/
theorem delete_twice_statuses (st : Store) (nm : String) :
    (st.coll.countP (fun d => Doc.hasName d nm) = 0 →
      (delete_playlist st nm).1.status = 404 ∧ (delete_playlist st nm).2 = st) ∧
    (0 < st.coll.countP (fun d => Doc.hasName d nm) →
      (delete_playlist st nm).1.status = 200 ∧
        (delete_playlist st nm).2.coll.countP (fun d => Doc.hasName d nm) =
          st.coll.countP (fun d => Doc.hasName d nm) - 1) ∧
    (st.coll.countP (fun d => Doc.hasName d nm) = 1 →
      (delete_playlist st nm).1.status = 200 ∧
        (delete_playlist (delete_playlist st nm).2 nm).1.status = 404) := by
  have hzero : ∀ s : Store, s.coll.countP (fun d => Doc.hasName d nm) = 0 →
      (delete_playlist s nm).1.status = 404 ∧ (delete_playlist s nm).2 = s := by
    intro s h0
    have hdel := delete_one_count_zero s.coll nm h0
    simp only [delete_playlist, hdel]
    exact ⟨by trivial, by trivial⟩
  have hpos : 0 < st.coll.countP (fun d => Doc.hasName d nm) →
      (delete_playlist st nm).1.status = 200 ∧
        (delete_playlist st nm).2.coll.countP (fun d => Doc.hasName d nm) =
          st.coll.countP (fun d => Doc.hasName d nm) - 1 := by
    intro hp
    have hdel := delete_one_count_pos st.coll nm hp
    constructor
    · simp only [delete_playlist, hdel.1]
      trivial
    · have hcoll : (delete_playlist st nm).2.coll = (delete_one st.coll nm).1 := by
        simp only [delete_playlist]
        split <;> rfl
      rw [hcoll]
      exact hdel.2
  refine ⟨hzero st, hpos, fun h1 => ?_⟩
  have hp := hpos (by omega)
  refine ⟨hp.1, ?_⟩
  have hz : (delete_playlist st nm).2.coll.countP (fun d => Doc.hasName d nm) = 0 := by
    rw [hp.2, h1]
  exact (hzero _ hz).1

/-- Witness for C8: the store holds exactly one `jazz` playlist; deleting
it twice returns 200 then 404. -/
theorem delete_twice_statuses_witness :
    sampleStore.coll.countP (fun d => Doc.hasName d "jazz") = 1 ∧
      (delete_playlist sampleStore "jazz").1.status = 200 ∧
      (delete_playlist (delete_playlist sampleStore "jazz").2 "jazz").1.status = 404 :=
  ⟨rfl,
   ((delete_twice_statuses sampleStore "jazz").2.2 rfl).1,
   ((delete_twice_statuses sampleStore "jazz").2.2 rfl).2⟩

/-- C5: the `pages` field of GET `/playlists` equals ceil(total/per_page)
when total > 0 and 0 when total = 0, where per_page is the effective page
size; in particular it is 0, 1 and 2 at the spec's three sample points
(total 0, 1 and 11 with per_page 10). -/
theorem pages_is_ceil (st : Store) (pageArg perPageArg : Option Int)
    (hp : 0 < (get_all_playlists st pageArg perPageArg).per_page) :
    ((get_all_playlists st pageArg perPageArg).total = 0 →
      (get_all_playlists st pageArg perPageArg).pages = 0) ∧
    (0 < (get_all_playlists st pageArg perPageArg).total →
      (get_all_playlists st pageArg perPageArg).pages =
        ⌈((get_all_playlists st pageArg perPageArg).total : ℚ) /
          ((get_all_playlists st pageArg perPageArg).per_page : ℚ)⌉) ∧
    (get_all_playlists (storeOfCount 0) none (some 10)).pages = 0 ∧
    (get_all_playlists (storeOfCount 1) none (some 10)).pages = 1 ∧
    (get_all_playlists (storeOfCount 11) none (some 10)).pages = 2 := by
  refine ⟨fun h0 => ?_, fun ht => ?_, by decide, by decide, by decide⟩
  · have h0' : st.coll.length = 0 := h0
    simp [get_all_playlists, h0']
  · have ht' : 0 < st.coll.length := ht
    have hp' : 0 < min ((perPageArg).getD 10) 50 := hp
    show (if st.coll.length > 0
          then Int.fdiv ((st.coll.length : Int) + min ((perPageArg).getD 10) 50 - 1)
                 (min ((perPageArg).getD 10) 50)
          else 0) =
        ⌈((st.coll.length : Nat) : ℚ) / ((min ((perPageArg).getD 10) 50 : Int) : ℚ)⌉
    rw [if_pos ht', fdiv_ceil_eq _ _ hp']
    norm_cast
/-- Witness for C5: eleven documents at page size 10. -/
theorem pages_is_ceil_witness :
    0 < (get_all_playlists (storeOfCount 11) none (some 10)).per_page ∧
      0 < (get_all_playlists (storeOfCount 11) none (some 10)).total ∧
      (get_all_playlists (storeOfCount 11) none (some 10)).pages =
        ⌈((get_all_playlists (storeOfCount 11) none (some 10)).total : ℚ) /
          ((get_all_playlists (storeOfCount 11) none (some 10)).per_page : ℚ)⌉ :=
  ⟨by decide, by decide,
   (pages_is_ceil (storeOfCount 11) none (some 10) (by decide)).2.1 (by decide)⟩
